import Mathlib

/-!
Verification of the Global-Guide-Bot conversational booking system.

This file gives a shallow embedding, in Lean, of the deterministic core of the
repository: the orchestrator's reset / deduplication gate
(`src/lambda/agentcore/enhanced_orchestrator.py`), the layered memory and
conversation-strand stores (`src/lambda/agentcore/memory.py`,
`terraform/agentcore/strands.py`), the tourist agent's `awaiting_date`
slot-filling step (`src/lambda/agentcore/tourist_agent.py`), the booking
agent's deterministic pricing and availability checks
(`terraform/agentcore/booking_agent.py`), and the guide agent's deterministic
scoring, privacy filtering and pagination (`terraform/agentcore/guide_agent.py`).

External effects are modelled explicitly: the Record Store tables become
function-typed parameters or explicit state, the LLM ("Reasoner") outputs
become parameters, Python floats become rationals, and Python `datetime`
values become plain tuples / epoch seconds.
-/

namespace GlobalGuideBot

/-- `charsStartWith hay needle`: the character list `hay` starts with
`needle`. -/
def charsStartWith : List Char → List Char → Bool
  | _, [] => true
  | [], _ :: _ => false
  | b :: bs, a :: as => a == b && charsStartWith bs as

/-- `charsContain hay needle`: `needle` occurs contiguously somewhere in
`hay` (true for the empty needle). -/
def charsContain (hay needle : List Char) : Bool :=
  match hay with
  | [] => needle.isEmpty
  | _ :: t => charsStartWith hay needle || charsContain t needle

/-- Python's substring test `needle in hay`. -/
def strContains (hay needle : String) : Bool :=
  charsContain hay.toList needle.toList

/-- Python `str.lower()` (ASCII case mapping, as in the source's inputs). -/
def pyLower (s : String) : String := String.mk (s.toList.map Char.toLower)

/-- Default Python `str.strip()` whitespace class. -/
def isSpaceChar (c : Char) : Bool :=
  c == ' ' || c == '\t' || c == '\n' || c == '\r' || c == '\x0b' || c == '\x0c'

/-- Python `str.strip()`: drop leading and trailing whitespace. -/
def pyStrip (s : String) : String :=
  String.mk (((s.toList.dropWhile isSpaceChar).reverse.dropWhile isSpaceChar).reverse)

/-- Fuel-indexed worker for `pyReplace`; the fuel starts at the string length
and bounds the number of consumed characters. -/
def replaceGo : Nat → List Char → List Char → List Char → List Char
  | 0, cs, _, _ => cs
  | Nat.succ n, cs, old, new =>
    match cs with
    | [] => []
    | c :: t =>
      if old ≠ [] && charsStartWith cs old then
        new ++ replaceGo n (cs.drop old.length) old new
      else c :: replaceGo n t old new

/-- Python `str.replace(old, new)`: left-to-right non-overlapping
replacement (for non-empty `old`, the only case the source uses). -/
def pyReplace (s old new : String) : String :=
  String.mk (replaceGo s.toList.length s.toList old.toList new.toList)

/-- Worker for `pySplitWs`, accumulating the current word reversed. -/
def splitWsGo : List Char → List Char → List String
  | [], acc => if acc.isEmpty then [] else [String.mk acc.reverse]
  | c :: t, acc =>
    if isSpaceChar c then
      (if acc.isEmpty then splitWsGo t [] else String.mk acc.reverse :: splitWsGo t [])
    else splitWsGo t (c :: acc)

/-- Python `str.split()` with no argument: split on whitespace runs,
discarding empty pieces. -/
def pySplitWs (s : String) : List String := splitWsGo s.toList []

/-! ## Conversation strands (`terraform/agentcore/strands.py`)

`ConversationStrand` stores an ordered message list, the involved agent
names, and bookkeeping timestamps (modelled as epoch seconds).  Free-form
dictionary payloads are abstracted as association lists of strings. -/

/-- One `{role, content, agent, timestamp}` entry of
`ConversationStrand.messages` (`strands.py` lines 39-44). -/
structure StrandMsg where
  role : String
  content : String
  agent : Option String
  timestamp : Nat
deriving Repr, DecidableEq

/-- A `ConversationStrand` (`strands.py` lines 20-48): id, type, status,
context mapping, involved agents and the ordered message list.  Timestamps
are epoch seconds. -/
structure Strand where
  strandId : String
  strandType : String
  userId : String
  createdAt : Nat
  lastActivity : Nat
  status : String
  context : List (String × String)
  agentsInvolved : List String
  messages : List StrandMsg
deriving Repr, DecidableEq

/-- `ConversationStrand.add_message` (`strands.py` lines 37-48): append one
message record, refresh `last_activity`, and record the agent name in
`agents_involved` only when it is truthy (non-`None`, non-empty) and not
already present. -/
def Strand.addMessage (s : Strand) (now : Nat) (role content : String)
    (agent : Option String) : Strand :=
  let s1 : Strand :=
    { s with
      messages := s.messages ++ [⟨role, content, agent, now⟩]
      lastActivity := now }
  match agent with
  | none => s1
  | some a =>
      if a ≠ "" ∧ a ∉ s.agentsInvolved then
        { s1 with agentsInvolved := s.agentsInvolved ++ [a] }
      else s1

/-- `ConversationStrand.is_expired` (`strands.py` lines 55-57) with the
default 30-minute timeout: `(now - last_activity).total_seconds() > 30*60`. -/
def Strand.isExpired (s : Strand) (now : Nat) : Bool :=
  now - s.lastActivity > 30 * 60

/-! ## Layered memory (`src/lambda/agentcore/memory.py`)

The per-user memory record is a free-form dictionary in the source; the
embedding keeps the projections the orchestrator reads (`working`,
`long_term.preferences`, `long_term.history`, `strands`, `events`), each
defaulting to empty when the key is absent — absent keys and present-but-empty
keys are observationally identical through the source's `dict.get` reads, so
both are represented by the empty list.  History events and working payloads
are abstracted as strings. -/

structure MemoryRecord where
  workingMem : List (String × String) := []
  preferences : List (String × String) := []
  history : List String := []
  strands : List (String × Strand) := []
  events : List String := []
deriving Repr, DecidableEq

/-- Per-user memory table (`thailand-guide-bot-dev-memory`), keyed by user id;
`AgentMemory.get_memory` returns an empty record when no item exists. -/
def MemoryMap : Type := String → MemoryRecord

/-- The record written by `AgentMemory.clear_memory` (`memory.py` lines
127-134): `{'events': [], 'working': {}, 'last_updated': ...}` — every other
key is absent, hence every projection reads as empty. -/
def clearedMemoryRecord : MemoryRecord := {}

/-- `AgentMemory.clear_memory` for one user (`memory.py` lines 127-134). -/
def clearMemoryFor (user : String) (m : MemoryMap) : MemoryMap :=
  fun u => if u = user then clearedMemoryRecord else m u

/-- Modelled from the spec: `StrandManager.clear_strands` is invoked by the
orchestrator (`enhanced_orchestrator.py` lines 95 and 227) but its definition
is not in the repository snapshot — the lambda's own `strands` module is
absent and the `terraform/agentcore/strands.py` copy lacks the method.  The
spec states a reset "clears Memory and all Strands for the user", so the
model removes every strand stored in the user's memory record. -/
def clearStrandsFor (user : String) (m : MemoryMap) : MemoryMap :=
  fun u => if u = user then { m u with strands := [] } else m u

/-- `StrandManager.get_active_strands` (`strands.py` lines 99-110): read the
user's stored strands and keep those that are unexpired and `active`. -/
def getActiveStrands (m : MemoryMap) (user : String) (now : Nat) : List Strand :=
  ((m user).strands.map Prod.snd).filter
    (fun s => ¬ s.isExpired now ∧ s.status = "active")

/-! ## Orchestrator reset / dedup gate
(`src/lambda/agentcore/enhanced_orchestrator.py`)

The dedup table keyed by the message hash is modelled as a list of keys with
conditional-create semantics; MD5 is modelled by the hash preimage string
itself (`_generate_message_hash`, lines 40-45, builds
`f"{user_id}:{message}:{message_type}:{current_minute}"`).  The ambient clock
minute is an explicit parameter. -/

def confirmationWords : List String :=
  ["yes", "no", "confirm", "ok", "sure", "cancel", "proceed"]

def resetPhrases : List String :=
  ["reset", "clear", "start over", "restart", "new search"]

/-- `_generate_message_hash` (lines 40-45); MD5 modelled by its preimage. -/
def generateMessageHash (userId message messageType : String) (minute : Nat) : String :=
  userId ++ ":" ++ message ++ ":" ++ messageType ++ ":" ++ toString minute

/-- Outcome of the conditional `put_item` on the messages table. -/
inductive PutOutcome
  | success
  | condCheckFailed
  | otherError (e : String)
deriving Repr, DecidableEq

/-- Control flow of `_is_duplicate_message` (lines 47-69) with the store's
response abstracted: confirmation words bypass the store entirely; a
successful conditional create means "not a duplicate"; only
`ConditionalCheckFailedException` is caught and means "duplicate"; any other
store error is uncaught and propagates (`Except.error`). -/
def isDuplicateMessageCtrl (message : String) (put : PutOutcome) :
    Except String Bool :=
  if (pyStrip (pyLower message)) ∈ confirmationWords then Except.ok false
  else
    match put with
    | PutOutcome.success => Except.ok false
    | PutOutcome.condCheckFailed => Except.ok true
    | PutOutcome.otherError e => Except.error e

/-- Conditional create-if-absent on the dedup store
(`put_item` with `attribute_not_exists(messageId)`, lines 58-65). -/
def putIfAbsent (store : List String) (key : String) :
    PutOutcome × List String :=
  if key ∈ store then (PutOutcome.condCheckFailed, store)
  else (PutOutcome.success, key :: store)

/-- `_is_duplicate_message` (lines 47-69) against an ideal error-free store:
returns the duplicate flag and the updated store. -/
def dedupStep (store : List String) (key message : String) :
    Bool × List String :=
  if (pyStrip (pyLower message)) ∈ confirmationWords then (false, store)
  else
    match putIfAbsent store key with
    | (PutOutcome.condCheckFailed, store') => (true, store')
    | (_, store') => (false, store')

/-- Structured response of `process_user_message`; only the fields the
claims observe are kept, the rest of the free-form payload is abstract. -/
structure Response where
  message : String
  skipResponse : Bool
  duplicate : Bool
  reset : Bool
deriving Repr, DecidableEq

/-- Orchestrator state: the dedup message table plus the per-user memory
(which also holds the strands, see `StrandManager._save_strand`). -/
structure OrchState where
  messages : List String
  memory : MemoryMap

/-- The canned reset response (`enhanced_orchestrator.py` lines 96-100). -/
def resetResponse : Response :=
  { message := "Context reset! How can I help you today? Looking for a guide?"
    skipResponse := false
    duplicate := false
    reset := true }

/-- The duplicate no-op response (line 105):
`{"message": "", "duplicate": True, "skip_response": True}`. -/
def duplicateResponse : Response :=
  { message := ""
    skipResponse := true
    duplicate := true
    reset := false }

/-- Skeleton of `process_user_message` (lines 80-248).  Lines 91-105 — the
reset check, hash generation and dedup gate — are embedded exactly; the rest
of the turn (memory lookup, intent detection, strand selection, agent
delegation, post-processing, lines 107-248) involves LLM calls and is
abstracted as the parameter `proc`, which may read and rewrite the memory map
arbitrarily but never touches the dedup table (the source writes the messages
table only inside `_is_duplicate_message`). -/
def processUserMessage (proc : MemoryMap → Response × MemoryMap)
    (st : OrchState) (userMessage userId messageType : String) (minute : Nat) :
    Response × OrchState :=
  if (pyLower (pyStrip userMessage)) ∈ resetPhrases then
    (resetResponse,
      { messages := st.messages
        memory := clearStrandsFor userId (clearMemoryFor userId st.memory) })
  else
    let h := generateMessageHash userId userMessage messageType minute
    match dedupStep st.messages h userMessage with
    | (true, store') => (duplicateResponse, { st with messages := store' })
    | (false, store') =>
        let pr := proc st.memory
        (pr.1, { messages := store', memory := pr.2 })

/-! ## Tourist agent: `awaiting_date` slot-filling
(`src/lambda/agentcore/tourist_agent.py` lines 366-436)

The LLM date-parsing call (`call_bedrock`, line 384) returns a free-form
string; `datetime.strptime(parsed_date, '%Y-%m-%d')` either yields a date or
raises.  The embedding takes the raw reply string together with its `strptime`
result (`none` on parse failure) as parameters; calendar dates are `(year,
month, day)` triples compared lexicographically, exactly as Python compares
`datetime.date` values. -/

structure DateYMD where
  year : Nat
  month : Nat
  day : Nat
deriving Repr, DecidableEq

/-- Python `date < date`: lexicographic on (year, month, day). -/
def DateYMD.lt (a b : DateYMD) : Bool :=
  a.year < b.year ∨ (a.year = b.year ∧
    (a.month < b.month ∨ (a.month = b.month ∧ a.day < b.day)))

/-- The accumulated `search_criteria` mapping of the tourist agent's context;
only the slots this step reads or writes are kept. -/
structure SearchCriteria where
  location : Option String := none
  date : Option String := none
  interests : Option String := none
deriving Repr, DecidableEq

/-- Outcome of the `awaiting_date` branch: either an immediate re-prompt
return (lines 392-400 and 403-411), which leaves the routing chain, or a
fall-through into the `guide_search` routing (lines 413-436 followed by the
`intent['type'] == 'guide_search'` dispatch at line 455). -/
inductive AwaitingDateOutcome
  | reprompt (message : String) (awaitingDate : Bool) (criteria : SearchCriteria)
  | search (criteria : SearchCriteria) (awaitingDate : Bool)
deriving Repr, DecidableEq

/-- City extraction from an image-analysis suggestion (lines 418-423):
`"Wat Phra Kaew, Bangkok"` becomes `"Bangkok"` (split on comma, last part,
stripped). -/
def extractCity (suggested : String) : String :=
  if strContains suggested "," then
    pyStrip ((suggested.splitOn ",").getLastD "")
  else suggested

/-- Criteria update on date acceptance (lines 413-430): store the parsed
date, then backfill location and interests from image-analysis suggestions
when those slots are still absent. -/
def backfillCriteria (parsedReply : String) (criteria : SearchCriteria)
    (suggestedLocation suggestedInterests : Option String) : SearchCriteria :=
  let c1 : SearchCriteria := { criteria with date := some parsedReply }
  let c2 : SearchCriteria :=
    match suggestedLocation with
    | some loc =>
        if c1.location = none then { c1 with location := some (extractCity loc) } else c1
    | none => c1
  match suggestedInterests with
  | some ints =>
      if c2.interests = none then { c2 with interests := some ints } else c2
  | none => c2

/-- The `awaiting_date` handler (lines 366-436).  `parsedReply` is the raw
LLM reply (already `.strip()`ed, line 384); `parsed` is its
`strptime('%Y-%m-%d')` result, `none` when parsing raises; `today` is the
current date.  A past date or a parse failure re-prompts with
`awaiting_date` still set and the criteria unchanged; otherwise the date is
stored, location/interests are backfilled from image-analysis suggestions,
and the turn proceeds to `guide_search` with `awaiting_date` cleared. -/
def handleAwaitingDate (parsedReply : String) (parsed : Option DateYMD)
    (today : DateYMD) (criteria : SearchCriteria)
    (suggestedLocation suggestedInterests : Option String) :
    AwaitingDateOutcome :=
  match parsed with
  | none =>
      AwaitingDateOutcome.reprompt
        "I couldn't understand that date format. Please provide a date like 'December 15' or 'next Monday'."
        true criteria
  | some d =>
      if DateYMD.lt d today then
        AwaitingDateOutcome.reprompt
          ("The date " ++ parsedReply ++ " is in the past. Please provide a future date for your tour.")
          true criteria
      else
        AwaitingDateOutcome.search
          (backfillCriteria parsedReply criteria suggestedLocation suggestedInterests) false

/-! ## Booking agent: deterministic pricing
(`terraform/agentcore/booking_agent.py`, `_calculate_detailed_pricing`,
lines 556-631)

Python floats are modelled as rationals; `round(x, 2)` becomes rounding of
`100·x` to an integer.  The presentation-only `breakdown_text` field is
omitted. -/

/-- Python `round(x, 2)` on the (exactly representable) monetary values the
pricing produces. -/
def round2 (x : ℚ) : ℚ := (round (x * 100) : ℤ) / 100

/-- The slice of a guide record the pricing reads:
`guide_info.get('price_per_day', 80)`. -/
structure GuideInfo where
  pricePerDay : Option ℚ := none
deriving Repr, DecidableEq

/-- The slice of `booking_details` the pricing reads:
`booking_details.get('tour_type', 'general')`. -/
structure BookingDetails where
  tourType : Option String := none
deriving Repr, DecidableEq

/-- The computed pricing breakdown (lines 609-631, `breakdown_text`
omitted). -/
structure PricingResult where
  guideFee : ℚ
  transportation : ℚ
  entranceFees : ℚ
  meals : ℚ
  serviceFee : ℚ
  subtotal : ℚ
  total : ℚ
  depositRequired : ℚ
  balanceDue : ℚ
  numPeople : Nat
deriving Repr, DecidableEq

/-- Category-dependent unit costs (lines 577-592):
(transportation, entrance per person, meals per person). -/
def pricingCosts (tourTypeLower : String) : ℚ × ℚ × ℚ :=
  if ["temple", "cultural", "religious", "wat", "shrine"].any
      (fun w => strContains tourTypeLower w) then (15, 8, 15)
  else if ["island", "beach", "coastal", "water", "boat"].any
      (fun w => strContains tourTypeLower w) then (25, 15, 15)
  else if ["food", "market", "culinary", "street", "cuisine"].any
      (fun w => strContains tourTypeLower w) then (12, 5, 18)
  else (18, 5, 15)

/-- `_calculate_detailed_pricing` (lines 556-631), exceptions aside (the
body is total on these inputs, so the fallback branch at lines 633-641 is
unreachable in the model). -/
def calculateDetailedPricing (guideInfo : GuideInfo)
    (bookingDetails : BookingDetails) (numPeople : Nat) : PricingResult :=
  let baseRate : ℚ := guideInfo.pricePerDay.getD 80
  let tourType : String := bookingDetails.tourType.getD "general"
  let guideFee := baseRate
  let costs := pricingCosts (pyLower tourType)
  let transportation := costs.1
  let entrancePerPerson := costs.2.1
  let mealsPerPerson := costs.2.2
  let entranceFees := entrancePerPerson * numPeople
  let meals := mealsPerPerson * numPeople
  let serviceFee := guideFee * (10 / 100)
  let subtotal := guideFee + transportation + entranceFees + meals + serviceFee
  let total := round2 subtotal
  let depositRequired := round2 (total * (30 / 100))
  let balanceDue := round2 (total - depositRequired)
  { guideFee := guideFee
    transportation := transportation
    entranceFees := entranceFees
    meals := meals
    serviceFee := serviceFee
    subtotal := subtotal
    total := total
    depositRequired := depositRequired
    balanceDue := balanceDue
    numPeople := numPeople }

/-! ## Availability checks

Two copies exist: `BookingAgent._check_guide_availability`
(`booking_agent.py` lines 482-554) and
`GuideAgent._check_guide_availability_for_matching` (`guide_agent.py` lines
539-620).  Both first resolve the requested date to a `YYYY-MM-DD` key and
fetch the per-guide per-date availability item; the embedding starts from the
fetched item (`none` when no record exists) and keeps the resolved date
string as a parameter for the returned messages. -/

/-- The `availability` sub-dictionary of an availability record; a missing
slot key reads as `True` (`availability.get(slot, True)`). -/
structure AvailInfo where
  morning : Option Bool := none
  afternoon : Option Bool := none
  evening : Option Bool := none
deriving Repr, DecidableEq

/-- An availability table item: the `availability` mapping (absent reads as
`{}`) and the `bookings` list (entries abstracted as strings). -/
structure AvailRecord where
  availability : Option AvailInfo := none
  bookings : List String := []
deriving Repr, DecidableEq

/-- Slot-name resolution shared by both checkers (`booking_agent.py` lines
531-536, `guide_agent.py` lines 603-608): morning/evening lexical or
clock-time cues, else afternoon. -/
def resolveSlot (timeSlot : String) : String :=
  if strContains (pyLower timeSlot) "morning" || strContains timeSlot "9:00"
      || strContains timeSlot "8:00" then "morning"
  else if strContains (pyLower timeSlot) "evening" || strContains timeSlot "6:00"
      || strContains timeSlot "7:00" then "evening"
  else "afternoon"

/-- `availability.get(slot, True)` for a resolved slot name. -/
def AvailInfo.getSlot (a : AvailInfo) (slot : String) : Bool :=
  if slot = "morning" then a.morning.getD true
  else if slot = "evening" then a.evening.getD true
  else a.afternoon.getD true

/-- `BookingAgent._check_guide_availability` from the table fetch onward
(lines 522-549): no record means available; otherwise the resolved slot must
be marked available and the `bookings` list must be empty. -/
def bookingCheckAvailability (record : Option AvailRecord)
    (timeSlot dateStr : String) : Bool × String :=
  match record with
  | none => (true, "No conflicts found in schedule")
  | some rec =>
      let av := rec.availability.getD {}
      let slot := resolveSlot timeSlot
      let isAvailable := av.getSlot slot
      let hasConflicts := rec.bookings.length > 0
      if isAvailable ∧ ¬ hasConflicts then
        (true, "Guide available for " ++ slot ++ " slot on " ++ dateStr)
      else if ¬ isAvailable then
        (false, "Guide not available for " ++ slot ++ " slot on " ++ dateStr)
      else
        (false, "Guide has existing booking conflicts on " ++ dateStr)

/-- `GuideAgent._check_guide_availability_for_matching` from the table fetch
onward (lines 577-616): no record means available; a time slot containing
`anytime` is available when any of the three slots is marked available,
without consulting the `bookings` list; otherwise the resolved slot must be
marked available and the `bookings` list must be empty. -/
def matchingCheckAvailability (record : Option AvailRecord)
    (timeSlot dateStr : String) : Bool × String :=
  match record with
  | none => (true, "Available - no conflicts on " ++ dateStr)
  | some rec =>
      let av := rec.availability.getD {}
      if strContains (pyLower timeSlot) "anytime" then
        let m := av.morning.getD true
        let a := av.afternoon.getD true
        let e := av.evening.getD true
        if m || a || e then
          let slots := (if m then ["morning"] else []) ++
            (if a then ["afternoon"] else []) ++ (if e then ["evening"] else [])
          (true, "Available on " ++ dateStr ++ " (" ++ String.intercalate ", " slots ++ ")")
        else (false, "Fully booked on " ++ dateStr)
      else
        let slot := resolveSlot timeSlot
        let isAvailable := av.getSlot slot
        if isAvailable ∧ rec.bookings.length = 0 then
          (true, "Available for " ++ slot ++ " slot on " ++ dateStr)
        else
          (false, "Unavailable for " ++ slot ++ " slot on " ++ dateStr)

/-! ## Guide agent: deterministic scoring, privacy filter, pagination
(`terraform/agentcore/guide_agent.py`, `_smart_filter_guides`, lines 194-383)

The DynamoDB query/scan result is the input list; the availability table is a
function from (guideId, resolved date) to an optional record.  Guide records
keep the dictionary keys the filter reads (`Option` encodes key absence) plus
the keys the filter writes. -/

/-- A guide record: input keys the filter reads and output keys it writes. -/
structure GuideRec where
  guideId : String := ""
  name : String := ""
  location : Option String := none
  regions : Option (List String) := none
  specialties : Option (List String) := none
  gender : Option String := none
  contact : Option String := none
  whatsapp : Option String := none
  email : Option String := none
  matchScore : Option Int := none
  matchReasons : List String := []
  allSpecialties : List String := []
  videoUrl : Option String := none
  bookingMethod : Option String := none
  contactNote : Option String := none
  available : Option Bool := none
  availabilityStatus : Option String := none
deriving Repr, DecidableEq, Inhabited

/-- Search criteria for `_smart_filter_guides`; `interests` is modelled as a
word list (the source joins a list with spaces, or stringifies), `offset`
defaults to 0. -/
structure GuideCriteria where
  location : String := ""
  interests : List String := []
  date : String := ""
  offset : Nat := 0
deriving Repr, DecidableEq

/-- Requested-interest tokenisation (lines 271-274): replace commas and
`" and "` by spaces, split on whitespace, keep words longer than 2
characters. -/
def parseRequestedInterests (interestsLower : String) : List String :=
  (pySplitWs (pyReplace (pyReplace interestsLower "," " ") " and " " ")).filter
    (fun w => w.length > 2)

/-- Lexical specialty overlap (lines 280-285): the requested words that are
substrings of some lower-cased specialty. -/
def matchedInterests (interestsLower : String) (specialties : List String) :
    List String :=
  (parseRequestedInterests interestsLower).filter
    (fun req => (specialties.map pyLower).any (fun s => strContains s req))

/-- Interest score contribution with a given per-match weight and reason
label: the main path uses weight 35 with `"Semantic matched: "` (lines
287-289); the `except` fallback path uses weight 25 with
`"Basic matched: "` (lines 294-303). -/
def interestScoreWith (weight : Int) (label : String) (interestsLower : String)
    (specialties : Option (List String)) : Int × List String :=
  if interestsLower ≠ "" then
    match specialties with
    | some specs =>
        let matched := matchedInterests interestsLower specs
        if matched ≠ [] then
          (weight * matched.length, [label ++ String.intercalate ", " matched])
        else (0, [])
    | none => (0, [])
  else (0, [])

/-- Location score contribution (lines 259-266): +100 when the requested
location is a substring of the guide's location, else +15 when it is a
substring of some entry of the guide's `regions` list. -/
def locationScorePart (locationLower locationRaw : String) (g : GuideRec) :
    Int × List String :=
  if locationLower ≠ "" then
    match g.location with
    | some gloc =>
        if strContains (pyLower gloc) locationLower then
          (100, ["Based in " ++ gloc])
        else
          match g.regions with
          | some rs =>
              if rs.any (fun r => strContains (pyLower r) locationLower) then
                (15, ["Also covers " ++ locationRaw ++ " region"])
              else (0, [])
          | none => (0, [])
    | none => (0, [])
  else (0, [])

/-- The annotations applied to a surviving guide record (lines 308-328):
`match_score`, `match_reasons`, `all_specialties`, the gender-based
`video_url`, deletion of the contact keys, and the platform notice. -/
def annotateGuide (g : GuideRec) (score : Int) (reasons : List String) :
    GuideRec :=
  { g with
    matchScore := some score
    matchReasons := reasons
    allSpecialties := g.specialties.getD []
    videoUrl := some (if g.gender.getD "male" = "female" then
      "https://tinyurl.com/thaiguidef" else "https://tinyurl.com/thaiguidem")
    contact := none
    whatsapp := none
    email := none
    bookingMethod := some "Book through Thailand Guide Bot platform"
    contactNote := some "All communication handled through our secure platform" }

/-- One loop iteration of `_smart_filter_guides` (lines 251-330): score the
record, discard it when the score is below 20, otherwise annotate it via
`annotateGuide`. -/
def processGuide (locationLower interestsLower locationRaw : String)
    (g : GuideRec) : Option GuideRec :=
  let locPair := locationScorePart locationLower locationRaw g
  let intPair := interestScoreWith 35 "Semantic matched: " interestsLower g.specialties
  let score := locPair.1 + intPair.1
  if score ≥ 20 then some (annotateGuide g score (locPair.2 ++ intPair.2))
  else none

/-- The sort key `x.get('match_score', 0)` (line 333). -/
def scoreOf (g : GuideRec) : Int := g.matchScore.getD 0

/-- Descending-by-score order used by the stable sort at line 333. -/
def scoreGe (a b : GuideRec) : Prop := scoreOf b ≤ scoreOf a

instance : DecidableRel scoreGe := fun a b =>
  inferInstanceAs (Decidable (scoreOf b ≤ scoreOf a))

instance : IsTotal GuideRec scoreGe :=
  ⟨fun a b => le_total (scoreOf b) (scoreOf a)⟩

instance : IsTrans GuideRec scoreGe :=
  ⟨fun _ _ _ h1 h2 => le_trans h2 h1⟩

/-- The scored, thresholded and stably descending-sorted candidate list
(`matched_guides` after line 333).  Python's `list.sort` is stable, and a
stable sort is extensionally unique, so insertion sort under `scoreGe`
produces the same list. -/
def smartFilterCore (criteria : GuideCriteria) (allGuides : List GuideRec) :
    List GuideRec :=
  let locationLower := pyLower criteria.location
  let interestsLower := pyLower (String.intercalate " " criteria.interests)
  List.insertionSort scoreGe
    (allGuides.filterMap (processGuide locationLower interestsLower criteria.location))

/-- The availability pass of `_smart_filter_guides` (lines 344-357): keep
the matched guides whose availability check with time slot `anytime`
succeeds, annotating them as available. -/
def availableAnnotated (criteria : GuideCriteria) (matched : List GuideRec)
    (availTable : String → String → Option AvailRecord) : List GuideRec :=
  matched.filterMap (fun g =>
    let r := matchingCheckAvailability (availTable g.guideId criteria.date)
      "anytime" criteria.date
    if r.1 then
      some { g with available := some true, availabilityStatus := some r.2 }
    else none)

/-- The fallback annotation (lines 368-371): flag a guide unavailable. -/
def flagUnavailable (date : String) (g : GuideRec) : GuideRec :=
  { g with available := some false
           availabilityStatus := some ("Not available on " ++ date) }

/-- `_smart_filter_guides` (lines 194-383) from the table read onward:
score/threshold/sort via `smartFilterCore`, then — when a date is present —
keep the guides whose availability check (with time slot `anytime`) passes
and page those, falling back to the top matches flagged unavailable; without
a date, page the sorted matches directly.  Pagination is the Python slice
`[offset : offset+3]`. -/
def smartFilterGuides (criteria : GuideCriteria) (allGuides : List GuideRec)
    (availTable : String → String → Option AvailRecord) : List GuideRec :=
  let matched := smartFilterCore criteria allGuides
  let offset := criteria.offset
  if criteria.date ≠ "" then
    let availableGuides := availableAnnotated criteria matched availTable
    if availableGuides ≠ [] then (availableGuides.drop offset).take 3
    else ((matched.drop offset).take 3).map (flagUnavailable criteria.date)
  else (matched.drop offset).take 3

/-! ## Theorems -/

/-- C3: for a guide record with base daily rate 80, a tour type containing
"temple", and 2 people, the deterministic pricing yields guide_fee 80,
transportation 15, entrance_fees 16, meals 30, service_fee 8, total 149,
deposit 44.70 and balance 104.30, with service_fee = 10% of the guide fee,
deposit = 30% of the total, balance = total − deposit, the rounded values
rounded to 2 decimals. -/
theorem booking_pricing_temple_two_people (gi : GuideInfo) (bd : BookingDetails)
    (hrate : gi.pricePerDay = some 80)
    (htt : strContains (pyLower (bd.tourType.getD "general")) "temple" = true) :
    (calculateDetailedPricing gi bd 2).guideFee = 80 ∧
    (calculateDetailedPricing gi bd 2).transportation = 15 ∧
    (calculateDetailedPricing gi bd 2).entranceFees = 16 ∧
    (calculateDetailedPricing gi bd 2).meals = 30 ∧
    (calculateDetailedPricing gi bd 2).serviceFee = 8 ∧
    (calculateDetailedPricing gi bd 2).total = 149 ∧
    (calculateDetailedPricing gi bd 2).depositRequired = 447 / 10 ∧
    (calculateDetailedPricing gi bd 2).balanceDue = 1043 / 10 ∧
    (calculateDetailedPricing gi bd 2).serviceFee =
      (calculateDetailedPricing gi bd 2).guideFee * (10 / 100) ∧
    (calculateDetailedPricing gi bd 2).depositRequired =
      round2 ((calculateDetailedPricing gi bd 2).total * (30 / 100)) ∧
    (calculateDetailedPricing gi bd 2).balanceDue =
      round2 ((calculateDetailedPricing gi bd 2).total -
        (calculateDetailedPricing gi bd 2).depositRequired) := by
  have hc : pricingCosts (pyLower (bd.tourType.getD "general")) = (15, 8, 15) := by
    unfold pricingCosts
    rw [if_pos]
    simp only [List.any_cons, Bool.or_eq_true]
    exact Or.inl htt
  simp only [calculateDetailedPricing, hrate, hc, Option.getD_some]
  norm_num [round2, round_eq]

/-- Witness for C3 at a concrete guide record and booking details. -/
theorem booking_pricing_temple_two_people_witness :
    (({ pricePerDay := some 80 } : GuideInfo).pricePerDay = some 80 ∧
      strContains (pyLower (({ tourType := some "temple tour" } : BookingDetails).tourType.getD "general"))
        "temple" = true) ∧
    (calculateDetailedPricing { pricePerDay := some 80 }
        { tourType := some "temple tour" } 2).total = 149 :=
  ⟨⟨rfl, by decide⟩,
    (booking_pricing_temple_two_people { pricePerDay := some 80 }
      { tourType := some "temple tour" } rfl (by decide)).2.2.2.2.2.1⟩

/-- C5: a message whose lower-cased, stripped text is one of the
confirmation words is never treated as a duplicate, and the dedup store is
neither consulted nor written — for any store contents, including a store
that already holds the message's dedup key, and for any store response. -/
theorem confirmation_words_bypass_dedup (store : List String)
    (key message : String) (put : PutOutcome)
    (h : pyStrip (pyLower message) ∈ confirmationWords) :
    dedupStep store key message = (false, store) ∧
    isDuplicateMessageCtrl message put = Except.ok false := by
  refine ⟨?_, ?_⟩ <;> simp [dedupStep, isDuplicateMessageCtrl, h]

/-- Witness for C5: the word "yes" bypasses a store that already contains
its key, even when the store would report an error. -/
theorem confirmation_words_bypass_dedup_witness :
    (pyStrip (pyLower " Yes ") ∈ confirmationWords) ∧
    (dedupStep ["k0"] "k0" " Yes " = (false, ["k0"]) ∧
      isDuplicateMessageCtrl " Yes " (PutOutcome.otherError "boom") =
        Except.ok false) :=
  ⟨by decide,
    confirmation_words_bypass_dedup ["k0"] "k0" " Yes "
      (PutOutcome.otherError "boom") (by decide)⟩

/-- C4 counterexample: a Record Store error other than the conditional-check
failure during the dedup conditional create is *not* treated as
"not a duplicate" — the dedup check propagates the error instead of
returning `false`. -/
theorem dedup_store_error_counterexample :
    isDuplicateMessageCtrl "find me a guide" (PutOutcome.otherError "ServiceUnavailable") =
      Except.error "ServiceUnavailable" ∧
    Except.error "ServiceUnavailable" ≠ (Except.ok false : Except String Bool) := by
  refine ⟨?_, ?_⟩
  · simp only [isDuplicateMessageCtrl, confirmationWords]
    rw [if_neg (by decide)]
  · intro h
    exact Except.noConfusion h

/-- C4 amended: during the dedup conditional create, only the
distinguishable "already exists" condition failure is caught (and means
duplicate); a successful create means not-a-duplicate; any other Record
Store error is uncaught and propagates out of the dedup check as an
exception rather than being treated as "not a duplicate". -/
theorem dedup_store_error_propagates (message e : String)
    (h : pyStrip (pyLower message) ∉ confirmationWords) :
    isDuplicateMessageCtrl message (PutOutcome.otherError e) = Except.error e ∧
    isDuplicateMessageCtrl message PutOutcome.condCheckFailed = Except.ok true ∧
    isDuplicateMessageCtrl message PutOutcome.success = Except.ok false := by
  refine ⟨?_, ?_, ?_⟩ <;> simp [isDuplicateMessageCtrl, h]

/-- Witness for the amended C4 at a concrete non-confirmation message. -/
theorem dedup_store_error_propagates_witness :
    (pyStrip (pyLower "find me a guide") ∉ confirmationWords) ∧
    isDuplicateMessageCtrl "find me a guide" (PutOutcome.otherError "ServiceUnavailable") =
      Except.error "ServiceUnavailable" :=
  ⟨by decide,
    (dedup_store_error_propagates "find me a guide" "ServiceUnavailable" (by decide)).1⟩

/-- C6: in the `awaiting_date` handler, a parsed date strictly before today
re-prompts with `awaiting_date` still set and the stored criteria unchanged
(no transition to guide search); a date equal to today is accepted and
proceeds to guide search with the date stored and `awaiting_date` cleared;
a parse failure re-prompts without advancing state. -/
theorem awaiting_date_step (parsedReply : String) (today : DateYMD)
    (criteria : SearchCriteria) (sl si : Option String) :
    (∀ d : DateYMD, DateYMD.lt d today = true →
      handleAwaitingDate parsedReply (some d) today criteria sl si =
        AwaitingDateOutcome.reprompt
          ("The date " ++ parsedReply ++ " is in the past. Please provide a future date for your tour.")
          true criteria) ∧
    (handleAwaitingDate parsedReply (some today) today criteria sl si =
      AwaitingDateOutcome.search (backfillCriteria parsedReply criteria sl si) false ∧
      (backfillCriteria parsedReply criteria sl si).date = some parsedReply) ∧
    (handleAwaitingDate parsedReply none today criteria sl si =
      AwaitingDateOutcome.reprompt
        "I couldn't understand that date format. Please provide a date like 'December 15' or 'next Monday'."
        true criteria) := by
  refine ⟨?_, ?_, ?_⟩
  · intro d hd
    simp [handleAwaitingDate, hd]
  · have hlt : DateYMD.lt today today = false := by
      simp [DateYMD.lt]
    refine ⟨by simp [handleAwaitingDate, hlt], ?_⟩
    cases sl <;> cases si <;>
      simp only [backfillCriteria] <;> split_ifs <;> rfl
  · simp [handleAwaitingDate]

/-- Witness for C6 at a concrete past date, same-day date and parse
failure. -/
theorem awaiting_date_step_witness :
    (DateYMD.lt ⟨2025, 10, 11⟩ ⟨2025, 10, 12⟩ = true) ∧
    handleAwaitingDate "2025-10-11" (some ⟨2025, 10, 11⟩) ⟨2025, 10, 12⟩ {} none none =
      AwaitingDateOutcome.reprompt
        "The date 2025-10-11 is in the past. Please provide a future date for your tour."
        true {} :=
  ⟨by decide,
    (awaiting_date_step "2025-10-11" ⟨2025, 10, 12⟩ {} none none).1
      ⟨2025, 10, 11⟩ (by decide)⟩

/-- A sequence of `add_message` calls: (now, role, content, agent). -/
def applyAddMessages (s : Strand)
    (calls : List (Nat × String × String × Option String)) : Strand :=
  calls.foldl (fun acc c => acc.addMessage c.1 c.2.1 c.2.2.1 c.2.2.2) s

/-- One `add_message` call preserves the no-duplicate-agents invariant. -/
theorem addMessage_nodup_aux (s : Strand) (now : Nat) (role content : String)
    (agent : Option String) (h : s.agentsInvolved.Nodup) :
    (s.addMessage now role content agent).agentsInvolved.Nodup := by
  cases agent with
  | none => simpa [Strand.addMessage] using h
  | some a =>
      by_cases ha : a ≠ "" ∧ a ∉ s.agentsInvolved
      · simp [Strand.addMessage, ha, List.nodup_append, h, ha.2]
      · simpa [Strand.addMessage, ha] using h

/-- C10: `add_message` appends exactly one `{role, content, agent,
timestamp}` record, sets `last_activity` to the call time, preserves the
no-duplicate invariant of `agents_involved`, and across any sequence of
calls starting from a duplicate-free strand each agent name is recorded at
most once. -/
theorem strand_add_message_spec :
    (∀ (s : Strand) (now : Nat) (role content : String) (agent : Option String),
      (s.addMessage now role content agent).messages =
        s.messages ++ [⟨role, content, agent, now⟩] ∧
      (s.addMessage now role content agent).lastActivity = now ∧
      (s.agentsInvolved.Nodup →
        (s.addMessage now role content agent).agentsInvolved.Nodup)) ∧
    (∀ (s : Strand) (calls : List (Nat × String × String × Option String)),
      s.agentsInvolved.Nodup →
        (applyAddMessages s calls).agentsInvolved.Nodup ∧
        ∀ a : String, (applyAddMessages s calls).agentsInvolved.count a ≤ 1) := by
  have hstep : ∀ (s : Strand) (calls : List (Nat × String × String × Option String)),
      s.agentsInvolved.Nodup → (applyAddMessages s calls).agentsInvolved.Nodup := by
    intro s calls
    induction calls generalizing s with
    | nil => intro h; exact h
    | cons c rest ih =>
        intro h
        exact ih _ (addMessage_nodup_aux s c.1 c.2.1 c.2.2.1 c.2.2.2 h)
  refine ⟨?_, ?_⟩
  · intro s now role content agent
    refine ⟨?_, ?_, addMessage_nodup_aux s now role content agent⟩
    · cases agent with
      | none => simp [Strand.addMessage]
      | some a =>
          by_cases ha : a ≠ "" ∧ a ∉ s.agentsInvolved <;>
            simp [Strand.addMessage, ha]
    · cases agent with
      | none => simp [Strand.addMessage]
      | some a =>
          by_cases ha : a ≠ "" ∧ a ∉ s.agentsInvolved <;>
            simp [Strand.addMessage, ha]
  · intro s calls h
    refine ⟨hstep s calls h, ?_⟩
    exact List.nodup_iff_count_le_one.mp (hstep s calls h)

/-- Witness for C10: a fresh strand receiving two messages from the same
agent records that agent once. -/
theorem strand_add_message_spec_witness :
    (⟨"booking_1", "booking", "u1", 0, 0, "active", [], [], []⟩ : Strand).agentsInvolved.Nodup ∧
    (applyAddMessages ⟨"booking_1", "booking", "u1", 0, 0, "active", [], [], []⟩
        [(1, "assistant", "hi", some "cultural"),
         (2, "assistant", "more", some "cultural")]).agentsInvolved.Nodup :=
  ⟨by decide,
    (strand_add_message_spec.2
      ⟨"booking_1", "booking", "u1", 0, 0, "active", [], [], []⟩
      [(1, "assistant", "hi", some "cultural"),
       (2, "assistant", "more", some "cultural")] (by decide)).1⟩

/-- C7 counterexample: the Guide Agent's matching-path availability check,
invoked with the `anytime` time slot (as `_smart_filter_guides` always does),
reports a guide as available even though the availability record lists an
existing booking — contradicting "available only if that slot is marked
available and there are no existing bookings". -/
theorem availability_gate_counterexample :
    (matchingCheckAvailability
        (some { availability := some { morning := some true, afternoon := some true, evening := some true }
                bookings := ["bkg-1"] })
        "anytime" "2025-12-01").1 = true ∧
    ¬ (["bkg-1"] = ([] : List String)) ∧
    (({ morning := some true, afternoon := some true, evening := some true } : AvailInfo).getSlot
      (resolveSlot "anytime") = true) := by
  refine ⟨by decide, by simp, by decide⟩

/-- C7 amended: a missing availability record means available (both
checkers).  The requested time resolves to morning/afternoon/evening,
defaulting to afternoon absent any cue.  The Booking Agent's checker, and
the Guide Agent's checker for requests not containing `anytime`, treat the
guide as available exactly when the resolved slot is marked available and no
bookings are recorded; in particular `availability.afternoon = false` with a
request resolving to afternoon means unavailable.  Exception: the Guide
Agent's checker treats a request containing `anytime` as available exactly
when any of the three slots is marked available, without consulting the
bookings list. -/
theorem availability_gate_amended :
    (∀ ts ds : String, (bookingCheckAvailability none ts ds).1 = true ∧
      (matchingCheckAvailability none ts ds).1 = true) ∧
    (∀ ts : String,
      (resolveSlot ts = "morning" ∨ resolveSlot ts = "afternoon" ∨
        resolveSlot ts = "evening") ∧
      ((strContains (pyLower ts) "morning" = false ∧ strContains ts "9:00" = false ∧
        strContains ts "8:00" = false ∧ strContains (pyLower ts) "evening" = false ∧
        strContains ts "6:00" = false ∧ strContains ts "7:00" = false) →
        resolveSlot ts = "afternoon")) ∧
    (∀ (rec : AvailRecord) (ts ds : String),
      (bookingCheckAvailability (some rec) ts ds).1 = true ↔
        (rec.availability.getD {}).getSlot (resolveSlot ts) = true ∧
        rec.bookings = []) ∧
    (∀ (rec : AvailRecord) (ts ds : String),
      strContains (pyLower ts) "anytime" = false →
      ((matchingCheckAvailability (some rec) ts ds).1 = true ↔
        (rec.availability.getD {}).getSlot (resolveSlot ts) = true ∧
        rec.bookings = [])) ∧
    (∀ (rec : AvailRecord) (ts ds : String),
      strContains (pyLower ts) "anytime" = true →
      ((matchingCheckAvailability (some rec) ts ds).1 = true ↔
        ((rec.availability.getD {}).morning.getD true = true ∨
         (rec.availability.getD {}).afternoon.getD true = true ∨
         (rec.availability.getD {}).evening.getD true = true))) ∧
    (∀ (rec : AvailRecord) (ts ds : String),
      (rec.availability.getD {}).afternoon = some false →
      resolveSlot ts = "afternoon" →
      (bookingCheckAvailability (some rec) ts ds).1 = false ∧
      (strContains (pyLower ts) "anytime" = false →
        (matchingCheckAvailability (some rec) ts ds).1 = false)) := by
  refine ⟨?_, ?_, ?_, ?_, ?_, ?_⟩
  · intro ts ds
    exact ⟨rfl, rfl⟩
  · intro ts
    constructor
    · unfold resolveSlot
      split_ifs <;> simp
    · intro h
      unfold resolveSlot
      rw [if_neg, if_neg]
      · simp [h.2.2.2.1, h.2.2.2.2.1, h.2.2.2.2.2]
      · simp [h.1, h.2.1, h.2.2.1]
  · intro rec ts ds
    rcases hbk : rec.bookings with _ | ⟨b, bs⟩ <;>
      cases hs : (rec.availability.getD {}).getSlot (resolveSlot ts) <;>
      simp [bookingCheckAvailability, hbk, hs]
  · intro rec ts ds hany
    rcases hbk : rec.bookings with _ | ⟨b, bs⟩ <;>
      cases hs : (rec.availability.getD {}).getSlot (resolveSlot ts) <;>
      simp [matchingCheckAvailability, hany, hbk, hs]
  · intro rec ts ds hany
    cases hm : (rec.availability.getD {}).morning.getD true <;>
      cases ha : (rec.availability.getD {}).afternoon.getD true <;>
      cases he : (rec.availability.getD {}).evening.getD true <;>
      simp [matchingCheckAvailability, hany, hm, ha, he]
  · intro rec ts ds haft hslot
    have hget : (rec.availability.getD {}).getSlot (resolveSlot ts) = false := by
      rw [hslot]
      simp [AvailInfo.getSlot, haft]
    constructor
    · rcases hbk : rec.bookings with _ | ⟨b, bs⟩ <;>
        simp [bookingCheckAvailability, hbk, hget]
    · intro hany
      rcases hbk : rec.bookings with _ | ⟨b, bs⟩ <;>
        simp [matchingCheckAvailability, hany, hbk, hget]

/-- Witness for the amended C7: a record with `afternoon = false` and a
request with no slot cues is unavailable on the Booking Agent's checker. -/
theorem availability_gate_amended_witness :
    (({ availability := some { afternoon := some false }, bookings := [] } :
        AvailRecord).availability.getD {}).afternoon = some false ∧
    resolveSlot "2pm walk" = "afternoon" ∧
    (bookingCheckAvailability
      (some { availability := some { afternoon := some false }, bookings := [] })
      "2pm walk" "2025-12-01").1 = false :=
  ⟨rfl, by decide,
    ((availability_gate_amended.2.2.2.2.2
      { availability := some { afternoon := some false }, bookings := [] }
      "2pm walk" "2025-12-01" rfl (by decide)).1)⟩

/-- C1: for a message that is neither a reset phrase nor a confirmation
word, and whose dedup key is not yet recorded, the first invocation of
`process_user_message` creates the dedup record and is processed normally
(the abstract downstream processing runs on the memory); a second invocation
with identical arguments in the same clock minute mutates no state and
returns the no-op response with `skip_response = true` and an empty
message. -/
theorem dedup_idempotence
    (proc : MemoryMap → Response × MemoryMap) (st : OrchState)
    (userMessage userId messageType : String) (minute : Nat)
    (hreset : pyLower (pyStrip userMessage) ∉ resetPhrases)
    (hconf : pyStrip (pyLower userMessage) ∉ confirmationWords)
    (hfresh : generateMessageHash userId userMessage messageType minute ∉ st.messages) :
    (processUserMessage proc st userMessage userId messageType minute).2.messages =
      generateMessageHash userId userMessage messageType minute :: st.messages ∧
    (processUserMessage proc st userMessage userId messageType minute).1 =
      (proc st.memory).1 ∧
    (processUserMessage proc st userMessage userId messageType minute).2.memory =
      (proc st.memory).2 ∧
    processUserMessage proc
        (processUserMessage proc st userMessage userId messageType minute).2
        userMessage userId messageType minute =
      (duplicateResponse,
        (processUserMessage proc st userMessage userId messageType minute).2) ∧
    duplicateResponse.skipResponse = true ∧
    duplicateResponse.message = "" := by
  have h1 : processUserMessage proc st userMessage userId messageType minute =
      ((proc st.memory).1,
        ⟨generateMessageHash userId userMessage messageType minute :: st.messages,
          (proc st.memory).2⟩) := by
    simp [processUserMessage, dedupStep, putIfAbsent, hreset, hconf, hfresh]
  refine ⟨by rw [h1], by rw [h1], by rw [h1], ?_, rfl, rfl⟩
  rw [h1]
  simp [processUserMessage, dedupStep, putIfAbsent, hreset, hconf]

/-- Witness for C1 at a concrete message, user and in-memory state. -/
theorem dedup_idempotence_witness :
    (pyLower (pyStrip "find me a guide") ∉ resetPhrases) ∧
    (pyStrip (pyLower "find me a guide") ∉ confirmationWords) ∧
    (generateMessageHash "u1" "find me a guide" "text" 0 ∉
      ({ messages := [], memory := fun _ => {} } : OrchState).messages) ∧
    processUserMessage (fun m => (⟨"ok", false, false, false⟩, m))
        (processUserMessage (fun m => (⟨"ok", false, false, false⟩, m))
          { messages := [], memory := fun _ => {} } "find me a guide" "u1" "text" 0).2
        "find me a guide" "u1" "text" 0 =
      (duplicateResponse,
        (processUserMessage (fun m => (⟨"ok", false, false, false⟩, m))
          { messages := [], memory := fun _ => {} } "find me a guide" "u1" "text" 0).2) :=
  ⟨by decide, by decide, by decide,
    (dedup_idempotence (fun m => (⟨"ok", false, false, false⟩, m))
      { messages := [], memory := fun _ => {} } "find me a guide" "u1" "text" 0
      (by decide) (by decide) (by decide)).2.2.2.1⟩

/-- C2: a message whose normalized text is a reserved reset phrase makes the
orchestrator clear the user's memory and all strands and return the canned
prompt immediately; on the next lookup the user's active strands, stored
session-context sources (preferences, history, working memory, strands) are
all empty; the dedup store is untouched and the response does not depend on
the downstream processing (no dedup write, intent detection or agent
delegation happens).  The strand clearing follows the spec-modelled
`clearStrandsFor` (the source calls `clear_strands`, whose definition is
missing from the snapshot). -/
theorem reset_clears_everything
    (proc : MemoryMap → Response × MemoryMap) (st : OrchState)
    (userMessage userId messageType : String) (minute now : Nat)
    (h : pyLower (pyStrip userMessage) ∈ resetPhrases) :
    (processUserMessage proc st userMessage userId messageType minute).1 =
      resetResponse ∧
    resetResponse.message =
      "Context reset! How can I help you today? Looking for a guide?" ∧
    resetResponse.skipResponse = false ∧
    resetResponse.reset = true ∧
    (processUserMessage proc st userMessage userId messageType minute).2.messages =
      st.messages ∧
    (processUserMessage proc st userMessage userId messageType minute).2.memory userId =
      clearedMemoryRecord ∧
    getActiveStrands
      (processUserMessage proc st userMessage userId messageType minute).2.memory
      userId now = [] ∧
    ((processUserMessage proc st userMessage userId messageType minute).2.memory userId).preferences = [] ∧
    ((processUserMessage proc st userMessage userId messageType minute).2.memory userId).history = [] ∧
    ((processUserMessage proc st userMessage userId messageType minute).2.memory userId).workingMem = [] ∧
    ((processUserMessage proc st userMessage userId messageType minute).2.memory userId).strands = [] ∧
    (∀ proc' : MemoryMap → Response × MemoryMap,
      processUserMessage proc' st userMessage userId messageType minute =
        processUserMessage proc st userMessage userId messageType minute) := by
  have hmem : (processUserMessage proc st userMessage userId messageType minute).2.memory userId =
      clearedMemoryRecord := by
    simp [processUserMessage, h, clearStrandsFor, clearMemoryFor, clearedMemoryRecord]
  refine ⟨by simp [processUserMessage, h], rfl, rfl, rfl,
    by simp [processUserMessage, h], hmem, ?_, ?_, ?_, ?_, ?_, ?_⟩
  · simp [getActiveStrands, hmem, clearedMemoryRecord]
  · rw [hmem]; rfl
  · rw [hmem]; rfl
  · rw [hmem]; rfl
  · rw [hmem]; rfl
  · intro proc'
    simp [processUserMessage, h]

/-- Witness for C2: the command " Reset " clears a populated memory record
for the user. -/
theorem reset_clears_everything_witness :
    (pyLower (pyStrip " Reset ") ∈ resetPhrases) ∧
    (processUserMessage (fun m => (⟨"ok", false, false, false⟩, m))
        { messages := ["k0"]
          memory := fun _ =>
            { preferences := [("preferred_location", "Bangkok")]
              history := ["e1"]
              strands := [("booking_1", ⟨"booking_1", "booking", "u1", 0, 0, "active", [], [], []⟩)] } }
        " Reset " "u1" "text" 0).2.memory "u1" = clearedMemoryRecord :=
  ⟨by decide,
    (reset_clears_everything (fun m => (⟨"ok", false, false, false⟩, m))
      { messages := ["k0"]
        memory := fun _ =>
          { preferences := [("preferred_location", "Bangkok")]
            history := ["e1"]
            strands := [("booking_1", ⟨"booking_1", "booking", "u1", 0, 0, "active", [], [], []⟩)] } }
      " Reset " "u1" "text" 0 0 (by decide)).2.2.2.2.2.1⟩

/-- A surviving record of the scoring loop carries a `match_score` of at
least 20, has its contact fields deleted and carries the platform notice. -/
theorem processGuide_fields {ll il raw : String} {g g' : GuideRec}
    (h : processGuide ll il raw g = some g') :
    (∃ s : Int, g'.matchScore = some s ∧ 20 ≤ s) ∧
    g'.contact = none ∧ g'.whatsapp = none ∧ g'.email = none ∧
    g'.bookingMethod = some "Book through Thailand Guide Bot platform" := by
  simp only [processGuide] at h
  split at h
  case isTrue hcond =>
    cases h
    refine ⟨⟨_, ?_, hcond⟩, ?_, ?_, ?_, ?_⟩ <;> simp [annotateGuide]
  case isFalse =>
    exact absurd h (by simp)

/-- Every member of the sorted candidate list is a processed survivor. -/
theorem smartFilterCore_fields (criteria : GuideCriteria) (gs : List GuideRec)
    {g' : GuideRec} (h : g' ∈ smartFilterCore criteria gs) :
    (∃ s : Int, g'.matchScore = some s ∧ 20 ≤ s) ∧
    g'.contact = none ∧ g'.whatsapp = none ∧ g'.email = none ∧
    g'.bookingMethod = some "Book through Thailand Guide Bot platform" := by
  unfold smartFilterCore at h
  rw [List.mem_insertionSort] at h
  rw [List.mem_filterMap] at h
  obtain ⟨g, _, hg⟩ := h
  exact processGuide_fields hg

/-- Members of the availability pass come from the matched list with only
the availability annotations changed. -/
theorem mem_availableAnnotated {criteria : GuideCriteria}
    {matched : List GuideRec}
    {availTable : String → String → Option AvailRecord} {g : GuideRec}
    (h : g ∈ availableAnnotated criteria matched availTable) :
    ∃ g₀ ∈ matched,
      g = { g₀ with
        available := some true
        availabilityStatus := some (matchingCheckAvailability
          (availTable g₀.guideId criteria.date) "anytime" criteria.date).2 } := by
  simp only [availableAnnotated, List.mem_filterMap] at h
  obtain ⟨g₀, hg₀, hfg⟩ := h
  refine ⟨g₀, hg₀, ?_⟩
  split at hfg
  · cases hfg
    rfl
  · exact absurd hfg (by simp)

/-- A guide with an exact location match and no interest overlap
(score 100). -/
def gExactLoc : GuideRec :=
  { guideId := "g-exact"
    name := "Anan"
    location := some "Bangkok"
    specialties := some ["diving tours"]
    contact := some "+66-111"
    whatsapp := some "+66-111"
    email := some "anan@example.com" }

/-- A guide with only a secondary covers-region match and two lexical
interest matches (score 15 + 70 = 85). -/
def gRegionOnly : GuideRec :=
  { guideId := "g-region"
    name := "Boon"
    location := some "Chiang Mai"
    regions := some ["Bangkok region"]
    specialties := some ["temples and markets tours"] }

/-- C8: the deterministic guide scoring assigns +100 for an exact location
match, +15 for a secondary covers-region match, and +35 per lexically
matched interest (+25 per match on the fallback path, same formula with
weight 25); records scoring below 20 are discarded; the surviving
candidates are sorted descending by score; and a guide with an exact
location match and no interest overlap (100) ranks above a guide with only
a region match and two interest matches (85). -/
theorem guide_match_scoring :
    (∀ (ll raw : String) (g : GuideRec) (gloc : String), ll ≠ "" →
      g.location = some gloc → strContains (pyLower gloc) ll = true →
      (locationScorePart ll raw g).1 = 100) ∧
    (∀ (ll raw : String) (g : GuideRec) (gloc : String) (rs : List String),
      ll ≠ "" → g.location = some gloc →
      strContains (pyLower gloc) ll = false → g.regions = some rs →
      rs.any (fun r => strContains (pyLower r) ll) = true →
      (locationScorePart ll raw g).1 = 15) ∧
    (∀ (il label : String) (specs : List String) (w : Int), il ≠ "" →
      (interestScoreWith w label il (some specs)).1 =
        w * (matchedInterests il specs).length) ∧
    (∀ (ll il raw : String) (g g' : GuideRec),
      processGuide ll il raw g = some g' →
      g'.matchScore = some ((locationScorePart ll raw g).1 +
        (interestScoreWith 35 "Semantic matched: " il g.specialties).1)) ∧
    (∀ (criteria : GuideCriteria) (gs : List GuideRec) (g' : GuideRec),
      g' ∈ smartFilterCore criteria gs →
      ∃ s : Int, g'.matchScore = some s ∧ 20 ≤ s) ∧
    (∀ (criteria : GuideCriteria) (gs : List GuideRec),
      (smartFilterCore criteria gs).Pairwise scoreGe) ∧
    ((smartFilterCore { location := "Bangkok", interests := ["temples", "markets"] }
        [gRegionOnly, gExactLoc]).map scoreOf = [100, 85] ∧
      (smartFilterCore { location := "Bangkok", interests := ["temples", "markets"] }
        [gRegionOnly, gExactLoc]).map GuideRec.guideId = ["g-exact", "g-region"]) := by
  refine ⟨?_, ?_, ?_, ?_, ?_, ?_, ?_⟩
  · intro ll raw g gloc hne hloc hc
    simp [locationScorePart, hne, hloc, hc]
  · intro ll raw g gloc rs hne hloc hc hr hany
    simp [locationScorePart, hne, hloc, hc, hr, hany]
  · intro il label specs w hil
    by_cases hm : matchedInterests il specs = [] <;>
      simp [interestScoreWith, hil, hm]
  · intro ll il raw g g' h
    simp only [processGuide] at h
    split at h
    · cases h
      simp [annotateGuide]
    · exact absurd h (by simp)
  · intro criteria gs g' h
    exact (smartFilterCore_fields criteria gs h).1
  · intro criteria gs
    unfold smartFilterCore
    exact List.sorted_insertionSort scoreGe _
  · exact ⟨by decide, by decide⟩

/-- Witness for C8: the +100 rule at a concrete location and guide. -/
theorem guide_match_scoring_witness :
    (("bangkok" : String) ≠ "" ∧ gExactLoc.location = some "Bangkok" ∧
      strContains (pyLower "Bangkok") "bangkok" = true) ∧
    (locationScorePart "bangkok" "Bangkok" gExactLoc).1 = 100 :=
  ⟨⟨by decide, rfl, by decide⟩,
    guide_match_scoring.1 "bangkok" "Bangkok" gExactLoc "Bangkok"
      (by decide) rfl (by decide)⟩

/-- C9: every guide record returned by the guide search has the `contact`,
`whatsapp` and `email` fields removed and carries the book-through-platform
notice — for any criteria, any input guide records and any availability
table, on every path (with or without a date, available or flagged
unavailable). -/
theorem guide_contact_privacy (criteria : GuideCriteria) (gs : List GuideRec)
    (availTable : String → String → Option AvailRecord) (g : GuideRec)
    (h : g ∈ smartFilterGuides criteria gs availTable) :
    g.contact = none ∧ g.whatsapp = none ∧ g.email = none ∧
    g.bookingMethod = some "Book through Thailand Guide Bot platform" := by
  simp only [smartFilterGuides] at h
  by_cases hd : criteria.date ≠ ""
  · rw [if_pos hd] at h
    by_cases hav : availableAnnotated criteria (smartFilterCore criteria gs) availTable ≠ []
    · rw [if_pos hav] at h
      have hmem := List.mem_of_mem_drop (List.mem_of_mem_take h)
      obtain ⟨g₀, hg₀, rfl⟩ := mem_availableAnnotated hmem
      exact (smartFilterCore_fields criteria gs hg₀).2
    · rw [if_neg hav] at h
      rw [List.mem_map] at h
      obtain ⟨g₀, hg₀, rfl⟩ := h
      have hmem := List.mem_of_mem_drop (List.mem_of_mem_take hg₀)
      exact (smartFilterCore_fields criteria gs hmem).2
  · rw [if_neg hd] at h
    have hmem := List.mem_of_mem_drop (List.mem_of_mem_take h)
    exact (smartFilterCore_fields criteria gs hmem).2

/-- Witness for C9: a guide stored with contact details is returned with
them stripped and the platform notice attached. -/
theorem guide_contact_privacy_witness :
    ((smartFilterGuides { location := "Bangkok" } [gExactLoc] (fun _ _ => none)).headI ∈
      smartFilterGuides { location := "Bangkok" } [gExactLoc] (fun _ _ => none)) ∧
    ((smartFilterGuides { location := "Bangkok" } [gExactLoc] (fun _ _ => none)).headI.contact = none ∧
     (smartFilterGuides { location := "Bangkok" } [gExactLoc] (fun _ _ => none)).headI.whatsapp = none ∧
     (smartFilterGuides { location := "Bangkok" } [gExactLoc] (fun _ _ => none)).headI.email = none ∧
     (smartFilterGuides { location := "Bangkok" } [gExactLoc] (fun _ _ => none)).headI.bookingMethod =
       some "Book through Thailand Guide Bot platform") :=
  ⟨by decide,
    guide_contact_privacy { location := "Bangkok" } [gExactLoc] (fun _ _ => none)
      _ (by decide)⟩

end GlobalGuideBot
